import Mathlib

/-!
Verification of the prompt-manager core (registry, manager cache, source
adapters) against its natural-language specification.  The Python modules
`core/manager.py`, `core/registry.py`, `core/config.py`,
`core/exceptions.py`, `sources/openai.py` and `sources/local.py` are
shallowly embedded below: dictionaries become association lists, wall-clock
time becomes an explicit `now : Int` parameter, exceptions become an
enumeration of the exception classes with explicit `Except` results, and
Python's falsy-coalescing `or` is modelled explicitly.
-/

/-- The exception classes of `core/exceptions.py`, one constructor per class. -/
inductive PMExc where
  | promptManagerError
  | configurationError
  | validationError
  | sourceError
  | sourceNotFoundError
  | sourceConnectionError
  | promptError
  | promptNotFoundError
  | promptRetrievalError
  | registryError
  | promptAlreadyRegisteredError
  | promptNotRegisteredError
  | openAIError
  | openAIConfigError
  | openAIRateLimitError
  | openAITimeoutError
  | localSourceError
  | fileNotFoundError
  | fileReadError
deriving DecidableEq

/-- Class-hierarchy test: is `e` an instance of `SourceConnectionError`?
In `exceptions.py`, `SourceConnectionError` has no subclasses. -/
def isSourceConnectionError : PMExc → Bool
  | .sourceConnectionError => true
  | _ => false

/-- Class-hierarchy test: is `e` an instance of `ConfigurationError`?
In `exceptions.py`, `OpenAIConfigError(OpenAIError, ConfigurationError)`
is the only subclass of `ConfigurationError`. -/
def isConfigurationError : PMExc → Bool
  | .configurationError => true
  | .openAIConfigError => true
  | _ => false

/-- Class-hierarchy test: is `e` an instance of `SourceError`?
Subclasses per `exceptions.py`: `SourceNotFoundError`, `SourceConnectionError`,
`OpenAIError` (and its children), `LocalSourceError` (and its children). -/
def isSourceError : PMExc → Bool
  | .sourceError => true
  | .sourceNotFoundError => true
  | .sourceConnectionError => true
  | .openAIError => true
  | .openAIConfigError => true
  | .openAIRateLimitError => true
  | .openAITimeoutError => true
  | .localSourceError => true
  | .fileNotFoundError => true
  | .fileReadError => true
  | _ => false

/-- Class-hierarchy test: is `e` an instance of `PromptAlreadyRegisteredError`? -/
def isPromptAlreadyRegisteredError : PMExc → Bool
  | .promptAlreadyRegisteredError => true
  | _ => false

/-- `SourceType` of `core/config.py`: the two supported source variants. -/
inductive SourceType where
  | openai
  | local
deriving DecidableEq

/-- Python-level errors escaping the manager: either one of the package's
exception classes, or a builtin error (`ValueError` and kin) escaping
`str.format`, which `_apply_variables` does not catch. -/
inductive PyErr where
  | pm (e : PMExc)
  | valueError
deriving DecidableEq

deriving instance DecidableEq for Except

/-- ASCII lowercasing, character by character: models Python `str.lower()`
on the ASCII error messages this code classifies. (`String.toLower` itself
is avoided only because its well-founded recursion does not reduce inside
the kernel.) -/
def asciiLower (s : String) : String :=
  String.mk (s.toList.map
    (fun c => if 'A' ≤ c ∧ c ≤ 'Z' then Char.ofNat (c.toNat + 32) else c))

/-- Association-list lookup, modelling `dict.__getitem__` / `in`. -/
def lookupAssoc {α : Type} : List (String × α) → String → Option α
  | [], _ => none
  | (k, v) :: t, key => if k = key then some v else lookupAssoc t key

/-- Association-list update, modelling `dict.__setitem__` (replace in place,
append if new). -/
def assocSet {α : Type} : List (String × α) → String → α → List (String × α)
  | [], key, v => [(key, v)]
  | (k, w) :: t, key, v =>
    if k = key then (k, v) :: t else (k, w) :: assocSet t key v

/-- Association-list deletion, modelling `dict.pop` / `del`. -/
def assocErase {α : Type} : List (String × α) → String → List (String × α)
  | [], _ => []
  | (k, w) :: t, key => if k = key then t else (k, w) :: assocErase t key

/-- Variable lookup in the supplied mapping, modelling `variables[key]`
access performed by `str.format(**variables)`. -/
def lookupVar (vars : List (String × String)) (k : String) : Option String :=
  (vars.find? (fun p => p.1 = k)).map (fun p => p.2)

/-- Errors `str.format` can raise: `KeyError` for a missing named field
(the only one `_apply_variables` catches), and `valueError` for malformed
templates (Python raises `ValueError`/`IndexError` there; the distinction
among non-`KeyError` errors does not matter, only that they are not caught). -/
inductive FmtErr where
  | keyError
  | valueError
deriving DecidableEq

/-- Character-level model of Python `str.format(**vars)` restricted to plain
named fields `{name}` and the escapes `{{` / `}}` (no conversion or format
specs, which this code base never uses).  The first component of the mode is
`some acc` while scanning a field name (accumulated in reverse). -/
def fmtAux (vars : List (String × String)) :
    Option (List Char) → List Char → Except FmtErr (List Char)
  | none, [] => .ok []
  | some _, [] => .error .valueError
  | none, c :: rest =>
    if c = '{' then fmtAux vars (some []) rest
    else if c = '}' then
      match rest with
      | [] => .error .valueError
      | d :: rest2 =>
        if d = '}' then (fun t => '}' :: t) <$> fmtAux vars none rest2
        else .error .valueError
    else (fun t => c :: t) <$> fmtAux vars none rest
  | some acc, c :: rest =>
    if c = '{' then
      if acc = [] then (fun t => '{' :: t) <$> fmtAux vars none rest
      else .error .valueError
    else if c = '}' then
      if acc = [] then .error .valueError
      else
        match lookupVar vars (String.mk acc.reverse) with
        | some v => (fun t => v.toList ++ t) <$> fmtAux vars none rest
        | none => .error .keyError
    else fmtAux vars (some (c :: acc)) rest

/-- `content.format(**vars)` as a `String` function. -/
def pyFormat (content : String) (vars : List (String × String)) :
    Except FmtErr String :=
  (fun l => String.mk l) <$> fmtAux vars none content.toList

/-- `PromptManager._apply_variables` (manager.py lines 416-435): falsy
`variables` short-circuits; `KeyError` from `format` is caught and the
original content returned; any other error propagates. -/
def applyVariables (content : String) (vars : List (String × String)) :
    Except PyErr String :=
  if vars.isEmpty then .ok content
  else
    match pyFormat content vars with
    | .ok s => .ok s
    | .error .keyError => .ok content
    | .error .valueError => .error .valueError

/-- `PromptConfig` of `core/config.py`, with the `source_config` dictionary
represented by its three fields this code base reads (`prompt_id`, `version`,
`path`). -/
structure PromptConfig where
  name : String
  source : SourceType
  promptId : Option String
  version : Option String
  path : Option String
  cacheTtl : Option Int
deriving DecidableEq

/-- The manager-wide settings of `PromptManagerConfig` used by the retrieval
and caching paths. -/
structure MgrConfig where
  cacheEnabled : Bool
  cacheTtl : Int
deriving DecidableEq

/-- The manager cache `self._cache : Dict[str, tuple[str, float]]`
(content, storedAt timestamp); time is an explicit integer. -/
abbrev Cache := List (String × String × Int)

/-- Python `a or b` on `Optional[int]`: `None` and `0` are falsy. Models
`ttl = prompt_config.cache_ttl or self.config.cache_ttl`
(manager.py line 206). -/
def pyOrInt (a : Option Int) (d : Int) : Int :=
  match a with
  | none => d
  | some v => if v = 0 then d else v

/-- Python `version or 'latest'` / the `if version:` guards: an empty string
is falsy just like `None`. -/
def pyOrStr (v : Option String) (w : Option String) : Option String :=
  match v with
  | some s => if s = "" then w else some s
  | none => w

/-- The cache key `f"{name}:{version or 'latest'}"` (manager.py line 176). -/
def cacheKeyOf (name : String) (version : Option String) : String :=
  name ++ ":" ++ (pyOrStr version (some "latest")).getD "latest"

/-- `PromptManager._get_cached` (manager.py lines 374-399): `None` when
caching is disabled or the key is unseen; when the manager-wide `cache_ttl`
is positive and has elapsed since the stored timestamp the entry is lazily
deleted and `None` returned; otherwise the stored content.  Returns the
possibly-updated cache alongside the result. -/
def getCached (cfg : MgrConfig) (cache : Cache) (now : Int) (key : String) :
    Option String × Cache :=
  if cfg.cacheEnabled = false then (none, cache)
  else
    match lookupAssoc cache key with
    | none => (none, cache)
    | some (content, ts) =>
      if cfg.cacheTtl > 0 then
        if now - ts > cfg.cacheTtl then (none, assocErase cache key)
        else (some content, cache)
      else (some content, cache)

/-- `PromptManager._cache_prompt` (manager.py lines 401-414): no-op when
caching is disabled or `ttl == 0`; otherwise stores `(content, time.time())`.
The `ttl` argument is otherwise unused, exactly as in the source. -/
def cachePrompt (cfg : MgrConfig) (cache : Cache) (now : Int) (key : String)
    (content : String) (ttl : Int) : Cache :=
  if cfg.cacheEnabled = false || ttl = 0 then cache
  else assocSet cache key (content, now)

/-- `PromptManager.get_prompt` (manager.py lines 150-216), with the source
adapter call abstracted as `fetch prompt_id effective_version
forwarded_variables`.  The registry is the `name → PromptConfig` map.
Mirrors the source: cache check first; unregistered name falls back to the
default inside the inner handler; on a fetched result the content is cached
(when `cache_enabled`) with `ttl = prompt_config.cache_ttl or
self.config.cache_ttl`; substitution is applied to the value being returned;
the outer handler substitutes the default for any error when one was given.
Returns the result together with the updated cache. -/
def managerGetPrompt (cfg : MgrConfig)
    (prompts : List (String × PromptConfig)) (cache : Cache) (now : Int)
    (fetch : String → Option String → List (String × String) →
      Except PMExc String)
    (name : String) (version : Option String)
    (vars : List (String × String)) (default : Option String) :
    Except PyErr String × Cache :=
  let key := cacheKeyOf name version
  let hitPair := getCached cfg cache now key
  let inner : Except PyErr String × Cache :=
    match hitPair.1 with
    | some c => (applyVariables c vars, hitPair.2)
    | none =>
      match lookupAssoc prompts name with
      | none =>
        match default with
        | some d => (applyVariables d vars, hitPair.2)
        | none => (.error (.pm .promptNotRegisteredError), hitPair.2)
      | some pcfg =>
        let effVersion := pyOrStr version pcfg.version
        let fwdVars := if vars.isEmpty then [] else vars
        let pid := pcfg.promptId.getD name
        match fetch pid effVersion fwdVars with
        | .error e => (.error (.pm e), hitPair.2)
        | .ok content =>
          let cache2 :=
            if cfg.cacheEnabled then
              cachePrompt cfg hitPair.2 now key content
                (pyOrInt pcfg.cacheTtl cfg.cacheTtl)
            else hitPair.2
          (applyVariables content vars, cache2)
  match inner.1 with
  | .ok s => (.ok s, inner.2)
  | .error e =>
    match default with
    | some d => (applyVariables d vars, inner.2)
    | none => (.error e, inner.2)

/-- `LocalFileSource.get_prompt` (local.py lines 94-152) after a successful
path resolution and file read yielding `fileContent`, with an empty
adapter-local cache: substitutes the forwarded variables (if any) before
returning; `KeyError` yields the unsubstituted content; any other error is
wrapped into `PromptRetrievalError` by the adapter's catch-all handler. -/
def localSourceGet (fileContent : String) (vars : List (String × String)) :
    Except PMExc String :=
  if vars.isEmpty then .ok fileContent
  else
    match pyFormat fileContent vars with
    | .ok s => .ok s
    | .error .keyError => .ok fileContent
    | .error .valueError => .error .promptRetrievalError

/-- The registry state of `core/registry.py`: the `name → PromptConfig`
mapping plus the derived `_sources_in_use` set (duplicate-free list). -/
structure RegState where
  prompts : List (String × PromptConfig)
  sourcesInUse : List SourceType
deriving DecidableEq

/-- `set.add`: insert without duplicating. -/
def insertSrc (s : SourceType) (l : List SourceType) : List SourceType :=
  if s ∈ l then l else l ++ [s]

/-- `{config.source for config in self._prompts.values()}`
(registry.py line 174, `_update_sources_in_use`). -/
def recomputeSources (prompts : List (String × PromptConfig)) :
    List SourceType :=
  prompts.foldl (fun acc p => insertSrc p.2.source acc) []

/-- `PromptRegistry.register` (registry.py lines 33-53): duplicate name
without overwrite raises `PromptAlreadyRegisteredError` and leaves the state
unchanged; otherwise the entry is stored and its source added to
`_sources_in_use` (nothing is ever removed from that set here). -/
def registryRegister (st : RegState) (cfg : PromptConfig)
    (overwrite : Bool) : Except PMExc Unit × RegState :=
  if (lookupAssoc st.prompts cfg.name).isSome && !overwrite then
    (.error .promptAlreadyRegisteredError, st)
  else
    (.ok (), { prompts := assocSet st.prompts cfg.name cfg,
               sourcesInUse := insertSrc cfg.source st.sourcesInUse })

/-- `PromptRegistry.remove` (registry.py lines 136-154): missing name raises
`PromptNotRegisteredError`; otherwise the entry is removed and
`_sources_in_use` recomputed from the survivors. -/
def registryRemove (st : RegState) (name : String) :
    Except PMExc Unit × RegState :=
  match lookupAssoc st.prompts name with
  | none => (.error .promptNotRegisteredError, st)
  | some _ =>
    let prompts' := assocErase st.prompts name
    (.ok (), { prompts := prompts', sourcesInUse := recomputeSources prompts' })

/-- `PromptRegistry.clear` (registry.py lines 156-161). -/
def registryClear (_st : RegState) : RegState :=
  { prompts := [], sourcesInUse := [] }

/-- `PromptRegistry.register_from_dict` (registry.py lines 55-87): builds a
`PromptConfig` and delegates to `register`, but its blanket
`except Exception` re-raises every failure as `ConfigurationError`.
`PromptManager.register_prompt` (manager.py lines 230-258) just delegates
here. -/
def registerFromDict (st : RegState) (cfg : PromptConfig)
    (overwrite : Bool) : Except PMExc Unit × RegState :=
  match registryRegister st cfg overwrite with
  | (.ok _, st') => (.ok (), st')
  | (.error _, st') => (.error .configurationError, st')

/-- One registry operation, for stating invariants over operation
sequences. -/
inductive RegOp where
  | reg (cfg : PromptConfig) (overwrite : Bool)
  | rem (name : String)
  | clr

/-- Apply one operation; a raising operation leaves the state unchanged
(the raised error is the caller's concern). -/
def applyRegOp (st : RegState) : RegOp → RegState
  | .reg cfg ow => (registryRegister st cfg ow).2
  | .rem name => (registryRemove st name).2
  | .clr => registryClear st

/-- Run a sequence of registry operations from the freshly-constructed
(empty) registry. -/
def applyRegOps (ops : List RegOp) : RegState :=
  ops.foldl applyRegOp { prompts := [], sourcesInUse := [] }

/-- Some currently registered entry uses source variant `v`. -/
def liveUses (st : RegState) (v : SourceType) : Prop :=
  ∃ p ∈ st.prompts, p.2.source = v

instance (st : RegState) (v : SourceType) : Decidable (liveUses st v) := by
  unfold liveUses; infer_instance

/-- Is `needle` an infix of `hay`?  Models Python `needle in hay` on
strings (character lists). -/
def infixOfB (needle : List Char) : List Char → Bool
  | [] => needle.isEmpty
  | h :: t => needle.isPrefixOf (h :: t) || infixOfB needle t

/-- `need in hay` for strings. -/
def containsSub (hay need : String) : Bool :=
  infixOfB need.toList hay.toList

/-- The `"not found" in error_str or "404" in error_str` classification of
openai.py line 150, applied to `str(e).lower()`. -/
def isNotFoundMsg (msg : String) : Bool :=
  containsSub (asciiLower msg) "not found" ||
    containsSub (asciiLower msg) "404"

/-- The `"rate limit" in error_str or "too many requests" in error_str`
classification of openai.py line 156. -/
def isRateLimitMsg (msg : String) : Bool :=
  containsSub (asciiLower msg) "rate limit" ||
    containsSub (asciiLower msg) "too many requests"

/-- The `"timeout" in error_str` classification of openai.py line 168. -/
def isTimeoutMsg (msg : String) : Bool :=
  containsSub (asciiLower msg) "timeout"

/-- What one attempt of the body of the retry loop observes from the OpenAI
call and response parsing: either an extracted prompt text, or an exception
carrying a message. -/
inductive Outcome where
  | success (text : String)
  | failure (msg : String)

/-- An attempt outcome that the loop classifies as rate-limit: a failure
whose message matches the rate-limit substrings and not the (checked first)
not-found substrings. -/
def attemptRateLimited : Outcome → Bool
  | .success _ => false
  | .failure msg => !isNotFoundMsg msg && isRateLimitMsg msg

/-- `OpenAIPromptSource.initialize` (openai.py lines 59-82): missing library
raises `ConfigurationError`; a falsy API key (absent or empty) raises
`OpenAIConfigError`; a failing client constructor raises
`SourceConnectionError`. -/
def openaiInitialize (hasLib : Bool) (apiKey : Option String)
    (clientInitFails : Bool) : Except PMExc Unit :=
  if hasLib = false then .error .configurationError
  else
    match apiKey with
    | none => .error .openAIConfigError
    | some k =>
      if k = "" then .error .openAIConfigError
      else if clientInitFails then .error .sourceConnectionError
      else .ok ()

/-- The retry loop of `OpenAIPromptSource.get_prompt` (openai.py lines
113-183), from loop index `attempt`.  Returns the Python outcome — `none`
models the implicit `return None` when the loop body never runs or the
budget recursion leaves the `for` — together with the list of `time.sleep`
durations performed.  Branches in source order: empty extracted text raises
`PromptNotFoundError` (whose own message contains "not found", so the
handler re-raises it as not-found); not-found messages raise immediately;
rate-limit messages sleep `2 ** attempt` then retry, or raise
`OpenAIRateLimitError` on the last attempt; timeout messages retry without
sleeping, or raise `OpenAITimeoutError`; anything else sleeps 1 second and
retries, or raises `PromptRetrievalError`. -/
def openaiLoop (attempts : Nat → Outcome) (maxRetries : Nat)
    (attempt : Nat) : Option (Except PMExc String) × List Nat :=
  if _h : attempt < maxRetries then
    match attempts attempt with
    | .success text =>
      if text = "" then (some (.error .promptNotFoundError), [])
      else (some (.ok text), [])
    | .failure msg =>
      if isNotFoundMsg msg then (some (.error .promptNotFoundError), [])
      else if isRateLimitMsg msg then
        if attempt < maxRetries - 1 then
          let r := openaiLoop attempts maxRetries (attempt + 1)
          (r.1, 2 ^ attempt :: r.2)
        else (some (.error .openAIRateLimitError), [])
      else if isTimeoutMsg msg then
        if attempt < maxRetries - 1 then
          openaiLoop attempts maxRetries (attempt + 1)
        else (some (.error .openAITimeoutError), [])
      else
        if attempt < maxRetries - 1 then
          let r := openaiLoop attempts maxRetries (attempt + 1)
          (r.1, 1 :: r.2)
        else (some (.error .promptRetrievalError), [])
  else (none, [])
termination_by maxRetries - attempt

/-- The adapter-local cache key `f"{prompt_id}:{version or 'latest'}"`
(openai.py line 104). -/
def srcCacheKey (promptId : String) (version : Option String) : String :=
  promptId ++ ":" ++ (pyOrStr version (some "latest")).getD "latest"

/-- `OpenAIPromptSource.get_prompt` (openai.py lines 84-183) on a
not-yet-initialized adapter: `_ensure_initialized` runs `initialize` first
(its exception propagates); then the adapter-local cache is consulted; on a
miss the retry loop runs, and a successful text is stored in the
adapter-local cache.  Returns (Python outcome, sleeps, updated adapter
cache). -/
def openaiSourceGet (hasLib : Bool) (apiKey : Option String)
    (clientInitFails : Bool) (srcCache : List (String × String))
    (attempts : Nat → Outcome) (maxRetries : Nat)
    (promptId : String) (version : Option String) :
    Option (Except PMExc String) × List Nat × List (String × String) :=
  match openaiInitialize hasLib apiKey clientInitFails with
  | .error e => (some (.error e), [], srcCache)
  | .ok _ =>
    let key := srcCacheKey promptId version
    match lookupAssoc srcCache key with
    | some v => (some (.ok v), [], srcCache)
    | none =>
      let r := openaiLoop attempts maxRetries 0
      (r.1, r.2,
        match r.1 with
        | some (.ok t) => assocSet srcCache key t
        | _ => srcCache)

/-- A template decomposed into literal runs and `{key}` placeholders, for
stating what substitution does on well-formed content. -/
inductive Seg where
  | lit (s : String)
  | var (k : String)

/-- Well-formedness of one segment: literals contain no braces; keys are
non-empty and contain no braces. -/
def segGood : Seg → Prop
  | .lit s => ∀ c ∈ s.toList, c ≠ '{' ∧ c ≠ '}'
  | .var k => k.toList ≠ [] ∧ ∀ c ∈ k.toList, c ≠ '{' ∧ c ≠ '}'

instance : ∀ sg : Seg, Decidable (segGood sg)
  | .lit s => inferInstanceAs (Decidable (∀ c ∈ s.toList, c ≠ '{' ∧ c ≠ '}'))
  | .var k =>
    inferInstanceAs
      (Decidable (k.toList ≠ [] ∧ ∀ c ∈ k.toList, c ≠ '{' ∧ c ≠ '}'))

/-- Every segment of the template is well-formed. -/
def goodTemplate (t : List Seg) : Prop := ∀ sg ∈ t, segGood sg

instance (t : List Seg) : Decidable (goodTemplate t) :=
  inferInstanceAs (Decidable (∀ sg ∈ t, segGood sg))

/-- The template's content string: literal runs verbatim, placeholders as
`{key}`. -/
def flattenL : List Seg → List Char
  | [] => []
  | .lit s :: t => s.toList ++ flattenL t
  | .var k :: t => '{' :: (k.toList ++ ('}' :: flattenL t))

/-- The fully substituted template: each `{key}` replaced by its value in
the mapping. -/
def renderL (vars : List (String × String)) : List Seg → List Char
  | [] => []
  | .lit s :: t => s.toList ++ renderL vars t
  | .var k :: t => ((lookupVar vars k).getD "").toList ++ renderL vars t

/-- The placeholder keys referenced by the template, in order. -/
def keysOf : List Seg → List String
  | [] => []
  | .lit _ :: t => keysOf t
  | .var k :: t => k :: keysOf t

/-- The superset half of the sources-in-use invariant. -/
def regInv (st : RegState) : Prop :=
  ∀ v, liveUses st v → v ∈ st.sourcesInUse

theorem lookupAssoc_assocSet_self {α : Type} (l : List (String × α))
    (k : String) (v : α) : lookupAssoc (assocSet l k v) k = some v := by
  induction l with
  | nil => simp [assocSet, lookupAssoc]
  | cons hd t ih =>
    obtain ⟨k', w⟩ := hd
    by_cases h : k' = k
    · simp [assocSet, lookupAssoc, h]
    · simp [assocSet, lookupAssoc, h, ih]

theorem fmtAux_lit (vars : List (String × String)) (s : List Char)
    (hs : ∀ c ∈ s, c ≠ '{' ∧ c ≠ '}') (cs : List Char) :
    fmtAux vars none (s ++ cs) = (fun t => s ++ t) <$> fmtAux vars none cs := by
  induction s with
  | nil => cases h : fmtAux vars none cs <;> simp [h]
  | cons c s' ih =>
    have hc := hs c (List.mem_cons_self _ _)
    have ih' := ih (fun d hd => hs d (List.mem_cons_of_mem _ hd))
    simp only [List.cons_append]
    rw [show fmtAux vars none (c :: (s' ++ cs)) =
      (fun t => c :: t) <$> fmtAux vars none (s' ++ cs) by
        conv_lhs => rw [fmtAux.eq_def]
        simp [hc.1, hc.2]]
    rw [ih']
    cases h : fmtAux vars none cs <;> simp [h]

theorem fmtAux_key (vars : List (String × String)) (k : List Char)
    (hk : ∀ c ∈ k, c ≠ '{' ∧ c ≠ '}') :
    ∀ (acc : List Char) (cs : List Char), acc.reverse ++ k ≠ [] →
    fmtAux vars (some acc) (k ++ '}' :: cs) =
      (match lookupVar vars (String.mk (acc.reverse ++ k)) with
       | some v => (fun t => v.toList ++ t) <$> fmtAux vars none cs
       | none => .error .keyError) := by
  induction k with
  | nil =>
    intro acc cs hne
    have hacc : acc ≠ [] := by simpa using hne
    conv_lhs => rw [fmtAux.eq_def]
    simp [hacc]
  | cons c k' ih =>
    intro acc cs hne
    have hc := hk c (List.mem_cons_self _ _)
    have ih' := ih (fun d hd => hk d (List.mem_cons_of_mem _ hd)) (c :: acc) cs
      (by simp)
    simp only [List.cons_append]
    rw [show fmtAux vars (some acc) (c :: (k' ++ '}' :: cs)) =
      fmtAux vars (some (c :: acc)) (k' ++ '}' :: cs) by
        conv_lhs => rw [fmtAux.eq_def]
        simp [hc.1, hc.2]]
    rw [ih']
    simp [List.reverse_cons, List.append_assoc]

theorem fmtAux_flatten_ok (vars : List (String × String)) (t : List Seg)
    (hg : goodTemplate t)
    (hall : ∀ k ∈ keysOf t, (lookupVar vars k).isSome = true) :
    fmtAux vars none (flattenL t) = .ok (renderL vars t) := by
  induction t with
  | nil => simp [flattenL, renderL, fmtAux]
  | cons sg t' ih =>
    have hg' : goodTemplate t' := fun x hx => hg x (List.mem_cons_of_mem _ hx)
    cases sg with
    | lit s =>
      have hs := hg (.lit s) (List.mem_cons_self _ _)
      have hall' : ∀ k ∈ keysOf t', (lookupVar vars k).isSome = true := by
        intro k hk; exact hall k (by simp [keysOf, hk])
      rw [show flattenL (.lit s :: t') = s.toList ++ flattenL t' from rfl]
      rw [fmtAux_lit vars s.toList hs (flattenL t')]
      rw [ih hg' hall']
      simp [renderL]
    | var k =>
      have hk := hg (.var k) (List.mem_cons_self _ _)
      have hall' : ∀ k' ∈ keysOf t', (lookupVar vars k').isSome = true := by
        intro k' hk'; exact hall k' (by simp [keysOf, hk'])
      have hkk : (lookupVar vars k).isSome = true :=
        hall k (by simp [keysOf])
      obtain ⟨v, hv⟩ := Option.isSome_iff_exists.mp hkk
      rw [show flattenL (.var k :: t') = '{' :: (k.toList ++ ('}' :: flattenL t')) from rfl]
      rw [show fmtAux vars none ('{' :: (k.toList ++ ('}' :: flattenL t'))) =
        fmtAux vars (some []) (k.toList ++ ('}' :: flattenL t')) by
          conv_lhs => rw [fmtAux.eq_def]
          simp]
      rw [fmtAux_key vars k.toList hk.2 [] (flattenL t') (by simpa using hk.1)]
      have : String.mk (([] : List Char).reverse ++ k.toList) = k := by
        simp
      rw [this, hv]
      rw [ih hg' hall']
      simp [renderL, hv]

theorem fmtAux_flatten_keyError (vars : List (String × String)) (t : List Seg)
    (hg : goodTemplate t)
    (hmiss : ∃ k ∈ keysOf t, lookupVar vars k = none) :
    fmtAux vars none (flattenL t) = .error .keyError := by
  induction t with
  | nil => simp [keysOf] at hmiss
  | cons sg t' ih =>
    have hg' : goodTemplate t' := fun x hx => hg x (List.mem_cons_of_mem _ hx)
    cases sg with
    | lit s =>
      have hs := hg (.lit s) (List.mem_cons_self _ _)
      have hmiss' : ∃ k ∈ keysOf t', lookupVar vars k = none := by
        simpa [keysOf] using hmiss
      rw [show flattenL (.lit s :: t') = s.toList ++ flattenL t' from rfl]
      rw [fmtAux_lit vars s.toList hs (flattenL t')]
      rw [ih hg' hmiss']
      rfl
    | var k =>
      have hk := hg (.var k) (List.mem_cons_self _ _)
      rw [show flattenL (.var k :: t') = '{' :: (k.toList ++ ('}' :: flattenL t')) from rfl]
      rw [show fmtAux vars none ('{' :: (k.toList ++ ('}' :: flattenL t'))) =
        fmtAux vars (some []) (k.toList ++ ('}' :: flattenL t')) by
          conv_lhs => rw [fmtAux.eq_def]
          simp]
      rw [fmtAux_key vars k.toList hk.2 [] (flattenL t') (by simpa using hk.1)]
      have hmk : String.mk (([] : List Char).reverse ++ k.toList) = k := by simp
      rw [hmk]
      cases hv : lookupVar vars k with
      | none => rfl
      | some v =>
        have hmiss' : ∃ k' ∈ keysOf t', lookupVar vars k' = none := by
          rcases hmiss with ⟨k', hk', hnone⟩
          rcases (by simpa [keysOf] using hk' : k' = k ∨ k' ∈ keysOf t') with h | h
          · subst h; rw [hv] at hnone; cases hnone
          · exact ⟨k', h, hnone⟩
        rw [ih hg' hmiss']
        rfl

theorem keysOf_nil_render (vars : List (String × String)) (t : List Seg)
    (h : keysOf t = []) : renderL vars t = flattenL t := by
  induction t with
  | nil => rfl
  | cons sg t' ih =>
    cases sg with
    | lit s =>
      have h' : keysOf t' = [] := by simpa [keysOf] using h
      simp [renderL, flattenL, ih h']
    | var k => simp [keysOf] at h

/-- C9: substitution on a well-formed template replaces every placeholder
when all referenced keys are present in the mapping, and returns the
original content unchanged (no error) when any referenced key is absent. -/
theorem claim_C9 (t : List Seg) (vars : List (String × String))
    (hg : goodTemplate t) :
    ((∀ k ∈ keysOf t, (lookupVar vars k).isSome = true) →
      applyVariables (String.mk (flattenL t)) vars =
        .ok (String.mk (renderL vars t)))
    ∧ ((∃ k ∈ keysOf t, lookupVar vars k = none) →
      applyVariables (String.mk (flattenL t)) vars =
        .ok (String.mk (flattenL t))) := by
  constructor
  · intro hall
    by_cases hv : vars.isEmpty
    · have hvnil : vars = [] := by
        cases vars with
        | nil => rfl
        | cons a l => simp [List.isEmpty] at hv
      have hkeys : keysOf t = [] := by
        rcases hkn : keysOf t with _ | ⟨k0, ks⟩
        · rfl
        · have := hall k0 (by rw [hkn]; exact List.mem_cons_self _ _)
          rw [hvnil] at this
          simp [lookupVar] at this
      rw [keysOf_nil_render vars t hkeys]
      simp [applyVariables, hv]
    · have hfmt : pyFormat (String.mk (flattenL t)) vars =
          .ok (String.mk (renderL vars t)) := by
        unfold pyFormat
        rw [show (String.mk (flattenL t)).toList = flattenL t from rfl]
        rw [fmtAux_flatten_ok vars t hg hall]
        rfl
      simp [applyVariables, hv, hfmt]
  · intro hmiss
    by_cases hv : vars.isEmpty
    · simp [applyVariables, hv]
    · have hfmt : pyFormat (String.mk (flattenL t)) vars = .error .keyError := by
        unfold pyFormat
        rw [show (String.mk (flattenL t)).toList = flattenL t from rfl]
        rw [fmtAux_flatten_keyError vars t hg hmiss]
        rfl
      simp [applyVariables, hv, hfmt]

/-- C9 witness: `"Hi {x}"` with `{"x": "A"}` yields `"Hi A"`, and with an
empty mapping it is returned unchanged. -/
theorem claim_C9_witness :
    applyVariables "Hi {x}" [("x", "A")] = .ok "Hi A" ∧
      applyVariables "Hi {x}" [] = .ok "Hi {x}" := by
  constructor
  · exact (claim_C9 [.lit "Hi ", .var "x"] [("x", "A")] (by decide)).1 (by decide)
  · exact (claim_C9 [.lit "Hi ", .var "x"] [] (by decide)).2 (by decide)

theorem mem_insertSrc {v s : SourceType} {l : List SourceType} :
    v ∈ insertSrc s l ↔ v = s ∨ v ∈ l := by
  by_cases h : s ∈ l
  · simp only [insertSrc, if_pos h]
    exact ⟨Or.inr, fun h2 => h2.elim (fun e => e ▸ h) id⟩
  · simp [insertSrc, if_neg h, or_comm]

theorem foldl_insertSrc_mem (l : List (String × PromptConfig)) :
    ∀ (acc : List SourceType) (v : SourceType),
      v ∈ l.foldl (fun a p => insertSrc p.2.source a) acc ↔
        v ∈ acc ∨ ∃ p ∈ l, p.2.source = v := by
  induction l with
  | nil => intro acc v; simp
  | cons hd t ih =>
    intro acc v
    rw [List.foldl_cons, ih (insertSrc hd.2.source acc) v]
    rw [mem_insertSrc]
    constructor
    · rintro (⟨h | h⟩ | ⟨p, hp, hs⟩)
      · exact Or.inr ⟨hd, List.mem_cons_self _ _, h.symm⟩
      · exact Or.inl h
      · exact Or.inr ⟨p, List.mem_cons_of_mem _ hp, hs⟩
    · rintro (h | ⟨p, hp, hs⟩)
      · exact Or.inl (Or.inr h)
      · rcases List.mem_cons.mp hp with h | h
        · exact Or.inl (Or.inl (h ▸ hs).symm)
        · exact Or.inr ⟨p, h, hs⟩

theorem mem_assocSet {α : Type} {l : List (String × α)} {k : String} {v : α}
    {p : String × α} (hp : p ∈ assocSet l k v) : p = (k, v) ∨ p ∈ l := by
  induction l with
  | nil => simpa [assocSet] using hp
  | cons hd t ih =>
    obtain ⟨k', w⟩ := hd
    by_cases h : k' = k
    · rw [show assocSet ((k', w) :: t) k v = (k', v) :: t from by
        simp [assocSet, h]] at hp
      rcases List.mem_cons.mp hp with h2 | h2
      · exact Or.inl (by rw [h2, h])
      · exact Or.inr (List.mem_cons_of_mem _ h2)
    · rw [show assocSet ((k', w) :: t) k v = (k', w) :: assocSet t k v from by
        simp [assocSet, h]] at hp
      rcases List.mem_cons.mp hp with h2 | h2
      · exact Or.inr (h2 ▸ List.mem_cons_self _ _)
      · rcases ih h2 with h3 | h3
        · exact Or.inl h3
        · exact Or.inr (List.mem_cons_of_mem _ h3)

theorem regInv_applyRegOp (st : RegState) (op : RegOp) (h : regInv st) :
    regInv (applyRegOp st op) := by
  cases op with
  | reg cfg ow =>
    show regInv (registryRegister st cfg ow).2
    unfold registryRegister
    by_cases hdup : ((lookupAssoc st.prompts cfg.name).isSome && !ow) = true
    · simpa [hdup] using h
    · simp only [hdup, if_false]
      rintro v ⟨p, hp, hsrc⟩
      rcases mem_assocSet hp with h2 | h2
      · exact mem_insertSrc.mpr (Or.inl (by rw [← hsrc, h2]))
      · exact mem_insertSrc.mpr (Or.inr (h v ⟨p, h2, hsrc⟩))
  | rem name =>
    show regInv (registryRemove st name).2
    unfold registryRemove
    cases hl : lookupAssoc st.prompts name with
    | none => exact h
    | some c =>
      rintro v ⟨p, hp, hsrc⟩
      show v ∈ recomputeSources (assocErase st.prompts name)
      exact (foldl_insertSrc_mem _ [] v).mpr (Or.inr ⟨p, hp, hsrc⟩)
  | clr =>
    rintro v ⟨p, hp, hsrc⟩
    exact absurd (show p ∈ ([] : List (String × PromptConfig)) from hp)
      (List.not_mem_nil p)

theorem regInv_foldl (ops : List RegOp) :
    ∀ st : RegState, regInv st → regInv (ops.foldl applyRegOp st) := by
  induction ops with
  | nil => intro st h; exact h
  | cons op t ih => intro st h; exact ih _ (regInv_applyRegOp st op h)

theorem regInv_applyRegOps (ops : List RegOp) : regInv (applyRegOps ops) :=
  regInv_foldl ops _ (by rintro v ⟨p, hp, _⟩; simp at hp)

/-- C4 (amended): along any sequence of registry operations, the derived
sources-in-use set contains every variant used by a live entry (it can also
hold stale variants left by an overwrite, so the converse fails). -/
theorem claim_C4_amended (ops : List RegOp) (v : SourceType)
    (h : liveUses (applyRegOps ops) v) :
    v ∈ (applyRegOps ops).sourcesInUse :=
  regInv_applyRegOps ops v h

/-- C4 witness: after registering one local-source prompt, `local` is both
live and in the derived set. -/
theorem claim_C4_amended_witness :
    liveUses (applyRegOps [.reg ⟨"a", .local, none, none, none, none⟩ false])
        SourceType.local ∧
      SourceType.local ∈
        (applyRegOps [.reg ⟨"a", .local, none, none, none, none⟩ false]).sourcesInUse :=
  ⟨by decide, claim_C4_amended _ _ (by decide)⟩

/-- C4 counterexample: re-registering name "a" with overwrite under the
openai variant leaves the stale local variant in the derived set although no
live entry uses it, refuting the claimed "if and only if". -/
theorem claim_C4_counterexample :
    SourceType.local ∈
        (applyRegOps [.reg ⟨"a", .local, none, none, none, none⟩ false,
          .reg ⟨"a", .openai, some "x", none, none, none⟩ true]).sourcesInUse ∧
      ¬ liveUses
          (applyRegOps [.reg ⟨"a", .local, none, none, none, none⟩ false,
            .reg ⟨"a", .openai, some "x", none, none, none⟩ true])
          SourceType.local := by
  decide

theorem openaiLoop_oob (attempts : Nat → Outcome) (n j : Nat) (hj : ¬ j < n) :
    openaiLoop attempts n j = (none, []) := by
  rw [openaiLoop.eq_def]
  simp [hj]

theorem openaiLoop_success (attempts : Nat → Outcome) (n j : Nat)
    (t : String) (hj : j < n) (ht : attempts j = .success t) (hne : t ≠ "") :
    openaiLoop attempts n j = (some (.ok t), []) := by
  rw [openaiLoop.eq_def]
  simp [hj, ht, hne]

theorem openaiLoop_notFound (attempts : Nat → Outcome) (n j : Nat)
    (m : String) (hj : j < n) (hm : attempts j = .failure m)
    (hnf : isNotFoundMsg m = true) :
    openaiLoop attempts n j = (some (.error .promptNotFoundError), []) := by
  rw [openaiLoop.eq_def]
  simp [hj, hm, hnf]

theorem openaiLoop_rl_last (attempts : Nat → Outcome) (n j : Nat)
    (m : String) (hj : j < n) (hlast : ¬ j < n - 1)
    (hm : attempts j = .failure m) (hnf : isNotFoundMsg m = false)
    (hrl : isRateLimitMsg m = true) :
    openaiLoop attempts n j = (some (.error .openAIRateLimitError), []) := by
  rw [openaiLoop.eq_def]
  simp [hj, hm, hnf, hrl, hlast]

theorem openaiLoop_rl_step (attempts : Nat → Outcome) (n j : Nat)
    (m : String) (hj : j < n) (hstep : j < n - 1)
    (hm : attempts j = .failure m) (hnf : isNotFoundMsg m = false)
    (hrl : isRateLimitMsg m = true) :
    openaiLoop attempts n j =
      ((openaiLoop attempts n (j + 1)).1,
        2 ^ j :: (openaiLoop attempts n (j + 1)).2) := by
  conv_lhs => rw [openaiLoop.eq_def]
  simp [hj, hm, hnf, hrl, hstep]

theorem openaiLoop_skip (attempts : Nat → Outcome) (n : Nat) (d : Nat) :
    ∀ j, j + d < n →
      (∀ i, j ≤ i → i < j + d → attemptRateLimited (attempts i) = true) →
      openaiLoop attempts n j =
        ((openaiLoop attempts n (j + d)).1,
          ((List.range' j d).map (2 ^ ·)) ++ (openaiLoop attempts n (j + d)).2) := by
  induction d with
  | zero => intro j h hr; simp
  | succ d ih =>
    intro j h hr
    have hrj := hr j (le_refl j) (by omega)
    cases ha : attempts j with
    | success t => rw [ha] at hrj; simp [attemptRateLimited] at hrj
    | failure m =>
      rw [ha] at hrj
      have hparts : isNotFoundMsg m = false ∧ isRateLimitMsg m = true := by
        simpa [attemptRateLimited] using hrj
      rw [openaiLoop_rl_step attempts n j m (by omega) (by omega) ha
        hparts.1 hparts.2]
      have ih' := ih (j + 1) (by omega)
        (fun i hi1 hi2 => hr i (by omega) (by omega))
      rw [ih']
      have hj1 : j + 1 + d = j + (d + 1) := by omega
      rw [hj1]
      rw [List.range'_succ]
      simp

theorem openaiLoop_success_empty (attempts : Nat → Outcome) (n j : Nat)
    (hj : j < n) (ht : attempts j = .success "") :
    openaiLoop attempts n j = (some (.error .promptNotFoundError), []) := by
  rw [openaiLoop.eq_def]
  simp [hj, ht]

theorem openaiLoop_to_last (attempts : Nat → Outcome) (n j : Nat)
    (m : String) (hj : j < n) (hlast : ¬ j < n - 1)
    (hm : attempts j = .failure m) (hnf : isNotFoundMsg m = false)
    (hrl : isRateLimitMsg m = false) (hto : isTimeoutMsg m = true) :
    openaiLoop attempts n j = (some (.error .openAITimeoutError), []) := by
  rw [openaiLoop.eq_def]
  simp [hj, hm, hnf, hrl, hto, hlast]

theorem openaiLoop_to_step (attempts : Nat → Outcome) (n j : Nat)
    (m : String) (hj : j < n) (hstep : j < n - 1)
    (hm : attempts j = .failure m) (hnf : isNotFoundMsg m = false)
    (hrl : isRateLimitMsg m = false) (hto : isTimeoutMsg m = true) :
    openaiLoop attempts n j = openaiLoop attempts n (j + 1) := by
  conv_lhs => rw [openaiLoop.eq_def]
  simp [hj, hm, hnf, hrl, hto, hstep]

theorem openaiLoop_gen_last (attempts : Nat → Outcome) (n j : Nat)
    (m : String) (hj : j < n) (hlast : ¬ j < n - 1)
    (hm : attempts j = .failure m) (hnf : isNotFoundMsg m = false)
    (hrl : isRateLimitMsg m = false) (hto : isTimeoutMsg m = false) :
    openaiLoop attempts n j = (some (.error .promptRetrievalError), []) := by
  rw [openaiLoop.eq_def]
  simp [hj, hm, hnf, hrl, hto, hlast]

theorem openaiLoop_gen_step (attempts : Nat → Outcome) (n j : Nat)
    (m : String) (hj : j < n) (hstep : j < n - 1)
    (hm : attempts j = .failure m) (hnf : isNotFoundMsg m = false)
    (hrl : isRateLimitMsg m = false) (hto : isTimeoutMsg m = false) :
    openaiLoop attempts n j =
      ((openaiLoop attempts n (j + 1)).1,
        1 :: (openaiLoop attempts n (j + 1)).2) := by
  conv_lhs => rw [openaiLoop.eq_def]
  simp [hj, hm, hnf, hrl, hto, hstep]

theorem openaiLoop_ne_none (attempts : Nat → Outcome) (n : Nat) :
    ∀ (fuel j : Nat), n - j = fuel → j < n →
      (openaiLoop attempts n j).1 ≠ none := by
  intro fuel
  induction fuel with
  | zero => intro j hf hj; omega
  | succ d ih =>
    intro j hf hj
    cases ha : attempts j with
    | success t =>
      by_cases hne : t = ""
      · rw [hne] at ha
        rw [openaiLoop_success_empty attempts n j hj ha]
        simp
      · rw [openaiLoop_success attempts n j t hj ha hne]
        simp
    | failure m =>
      by_cases hnf : isNotFoundMsg m = true
      · rw [openaiLoop_notFound attempts n j m hj ha hnf]; simp
      · replace hnf : isNotFoundMsg m = false := by
          simpa using hnf
        by_cases hrl : isRateLimitMsg m = true
        · by_cases hstep : j < n - 1
          · rw [openaiLoop_rl_step attempts n j m hj hstep ha hnf hrl]
            exact ih (j + 1) (by omega) (by omega)
          · rw [openaiLoop_rl_last attempts n j m hj hstep ha hnf hrl]; simp
        · replace hrl : isRateLimitMsg m = false := by simpa using hrl
          by_cases hto : isTimeoutMsg m = true
          · by_cases hstep : j < n - 1
            · rw [openaiLoop_to_step attempts n j m hj hstep ha hnf hrl hto]
              exact ih (j + 1) (by omega) (by omega)
            · rw [openaiLoop_to_last attempts n j m hj hstep ha hnf hrl hto]
              simp
          · replace hto : isTimeoutMsg m = false := by simpa using hto
            by_cases hstep : j < n - 1
            · rw [openaiLoop_gen_step attempts n j m hj hstep ha hnf hrl hto]
              exact ih (j + 1) (by omega) (by omega)
            · rw [openaiLoop_gen_last attempts n j m hj hstep ha hnf hrl hto]
              simp

/-- C5: on an uncached identifier with initialization succeeding, the OpenAI
adapter retries rate-limit-classified failures with `2 ^ attempt`-second
sleeps and surfaces a rate-limit error after the budget; a not-found
classified failure is raised immediately with no retry and no sleep; a
successful non-empty attempt within the budget returns that content (and
caches it), the earlier failures unobserved. -/
theorem claim_C5 (hasLib : Bool) (apiKey : Option String) (cif : Bool)
    (srcCache : List (String × String)) (n : Nat) (pid : String)
    (ver : Option String)
    (hinit : openaiInitialize hasLib apiKey cif = .ok ())
    (hmiss : lookupAssoc srcCache (srcCacheKey pid ver) = none)
    (hn : 1 ≤ n) :
    (∀ attempts, (∀ i, i < n → attemptRateLimited (attempts i) = true) →
      openaiSourceGet hasLib apiKey cif srcCache attempts n pid ver =
        (some (.error .openAIRateLimitError),
          (List.range (n - 1)).map (2 ^ ·), srcCache))
    ∧ (∀ attempts m, attempts 0 = .failure m → isNotFoundMsg m = true →
      openaiSourceGet hasLib apiKey cif srcCache attempts n pid ver =
        (some (.error .promptNotFoundError), [], srcCache))
    ∧ (∀ attempts k t,
      (∀ i, i < k → attemptRateLimited (attempts i) = true) →
      attempts k = .success t → t ≠ "" → k < n →
      openaiSourceGet hasLib apiKey cif srcCache attempts n pid ver =
        (some (.ok t), (List.range k).map (2 ^ ·),
          assocSet srcCache (srcCacheKey pid ver) t)) := by
  refine ⟨?_, ?_, ?_⟩
  · intro attempts hall
    have hs := openaiLoop_skip attempts n (n - 1) 0 (by omega)
      (fun i h1 h2 => hall i (by omega))
    simp only [Nat.zero_add] at hs
    have hrj := hall (n - 1) (by omega)
    cases ha : attempts (n - 1) with
    | success t => rw [ha] at hrj; simp [attemptRateLimited] at hrj
    | failure m =>
      rw [ha] at hrj
      have hparts : isNotFoundMsg m = false ∧ isRateLimitMsg m = true := by
        simpa [attemptRateLimited] using hrj
      rw [openaiLoop_rl_last attempts n (n - 1) m (by omega) (by omega) ha
        hparts.1 hparts.2] at hs
      simp only [openaiSourceGet, hinit, hmiss]
      rw [hs]
      simp [List.range_eq_range']
  · intro attempts m hm hnf
    have hs := openaiLoop_notFound attempts n 0 m (by omega) hm hnf
    simp only [openaiSourceGet, hinit, hmiss]
    rw [hs]
  · intro attempts k t hk ht hne hkn
    have hs := openaiLoop_skip attempts n k 0 (by omega)
      (fun i h1 h2 => hk i (by omega))
    simp only [Nat.zero_add] at hs
    rw [openaiLoop_success attempts n k t hkn ht hne] at hs
    simp only [openaiSourceGet, hinit, hmiss]
    rw [hs]
    simp [List.range_eq_range']

/-- C5 witness: two rate-limited failures then success returns the content
having slept 1 then 2 seconds; an immediate 404 retries nothing; all-rate-
limited attempts surface the rate-limit error after sleeping 1 and 2. -/
theorem claim_C5_witness :
    openaiSourceGet true (some "sk") false []
        (fun i => if i < 2 then .failure "Rate limit exceeded"
          else .success "hello") 3 "abc" none =
      (some (.ok "hello"), (List.range 2).map (2 ^ ·),
        assocSet [] (srcCacheKey "abc" none) "hello")
    ∧ openaiSourceGet true (some "sk") false []
        (fun _ => .failure "Error 404") 3 "abc" none =
      (some (.error .promptNotFoundError), [], [])
    ∧ openaiSourceGet true (some "sk") false []
        (fun _ => .failure "too many requests") 3 "abc" none =
      (some (.error .openAIRateLimitError), (List.range 2).map (2 ^ ·), []) := by
  refine ⟨?_, ?_, ?_⟩
  · exact (claim_C5 true (some "sk") false [] 3 "abc" none rfl rfl
      (by omega)).2.2 _ 2 "hello" (by decide) rfl (by decide) (by omega)
  · exact (claim_C5 true (some "sk") false [] 3 "abc" none rfl rfl
      (by omega)).2.1 _ "Error 404" rfl (by decide)
  · exact (claim_C5 true (some "sk") false [] 3 "abc" none rfl rfl
      (by omega)).1 _ (by decide)

/-- C10: with initialization succeeding and the identifier uncached, a
`max_retries` of at least 1 always yields a string or a typed error, while
`max_retries = 0` skips the loop body entirely and the adapter returns
Python `None`. -/
theorem claim_C10 (hasLib : Bool) (apiKey : Option String) (cif : Bool)
    (srcCache : List (String × String)) (attempts : Nat → Outcome) (n : Nat)
    (pid : String) (ver : Option String)
    (hinit : openaiInitialize hasLib apiKey cif = .ok ())
    (hmiss : lookupAssoc srcCache (srcCacheKey pid ver) = none) :
    (n = 0 →
      (openaiSourceGet hasLib apiKey cif srcCache attempts n pid ver).1 = none)
    ∧ (1 ≤ n →
      (openaiSourceGet hasLib apiKey cif srcCache attempts n pid ver).1 ≠
        none) := by
  constructor
  · intro h0
    subst h0
    simp only [openaiSourceGet, hinit, hmiss]
    rw [openaiLoop_oob attempts 0 0 (by omega)]
  · intro h1
    simp only [openaiSourceGet, hinit, hmiss]
    have hne := openaiLoop_ne_none attempts n (n - 0) 0 rfl (by omega)
    simpa using hne

/-- C10 witness: `max_retries = 0` returns None; `max_retries = 3` does
not. -/
theorem claim_C10_witness :
    (openaiSourceGet true (some "sk") false [] (fun _ => .failure "x") 0
        "p" none).1 = none
    ∧ (openaiSourceGet true (some "sk") false [] (fun _ => .failure "x") 3
        "p" none).1 ≠ none :=
  ⟨(claim_C10 true (some "sk") false [] (fun _ => .failure "x") 0 "p" none
      rfl rfl).1 rfl,
    (claim_C10 true (some "sk") false [] (fun _ => .failure "x") 3 "p" none
      rfl rfl).2 (by omega)⟩

theorem getCached_miss (cfg : MgrConfig) (cache : Cache) (now : Int)
    (key : String) (h : lookupAssoc cache key = none) :
    getCached cfg cache now key = (none, cache) := by
  unfold getCached
  by_cases he : cfg.cacheEnabled = false
  · simp [he]
  · simp [he, h]

theorem managerGetPrompt_fetch_ok (cfg : MgrConfig)
    (prompts : List (String × PromptConfig)) (cache : Cache) (now : Int)
    (fetch : String → Option String → List (String × String) →
      Except PMExc String)
    (name : String) (version : Option String)
    (vars : List (String × String)) (pcfg : PromptConfig) (content : String)
    (hmiss : lookupAssoc cache (cacheKeyOf name version) = none)
    (hreg : lookupAssoc prompts name = some pcfg)
    (hfetch : fetch (pcfg.promptId.getD name) (pyOrStr version pcfg.version)
      (if vars.isEmpty then [] else vars) = .ok content) :
    managerGetPrompt cfg prompts cache now fetch name version vars none =
      (applyVariables content vars,
        if cfg.cacheEnabled then
          cachePrompt cfg cache now (cacheKeyOf name version) content
            (pyOrInt pcfg.cacheTtl cfg.cacheTtl)
        else cache) := by
  simp only [managerGetPrompt, getCached_miss cfg cache now _ hmiss, hreg,
    hfetch]
  cases happly : applyVariables content vars <;> simp [happly]

theorem managerGetPrompt_fetch_error (cfg : MgrConfig)
    (prompts : List (String × PromptConfig)) (cache : Cache) (now : Int)
    (fetch : String → Option String → List (String × String) →
      Except PMExc String)
    (name : String) (version : Option String)
    (vars : List (String × String)) (pcfg : PromptConfig) (e : PMExc)
    (hmiss : lookupAssoc cache (cacheKeyOf name version) = none)
    (hreg : lookupAssoc prompts name = some pcfg)
    (hfetch : fetch (pcfg.promptId.getD name) (pyOrStr version pcfg.version)
      (if vars.isEmpty then [] else vars) = .error e) :
    managerGetPrompt cfg prompts cache now fetch name version vars none =
      (.error (.pm e), cache) := by
  simp only [managerGetPrompt, getCached_miss cfg cache now _ hmiss, hreg,
    hfetch]

/-- C8: an unregistered name with a default returns the default and raises
nothing; without a default it fails with the not-registered error. -/
theorem claim_C8 (cfg : MgrConfig) (prompts : List (String × PromptConfig))
    (cache : Cache) (now : Int)
    (fetch : String → Option String → List (String × String) →
      Except PMExc String)
    (name : String) (version : Option String) (d : String)
    (hc : lookupAssoc cache (cacheKeyOf name version) = none)
    (hr : lookupAssoc prompts name = none) :
    managerGetPrompt cfg prompts cache now fetch name version [] (some d) =
        (.ok d, cache)
    ∧ managerGetPrompt cfg prompts cache now fetch name version [] none =
        (.error (.pm .promptNotRegisteredError), cache) := by
  constructor <;>
    simp [managerGetPrompt, getCached_miss cfg cache now _ hc, hr,
      applyVariables]

/-- C8 witness at a concrete unregistered name. -/
theorem claim_C8_witness :
    managerGetPrompt ⟨true, 3600⟩ [] [] 0
        (fun _ _ _ => .error .promptNotFoundError) "w" none [] (some "D") =
        (.ok "D", [])
    ∧ managerGetPrompt ⟨true, 3600⟩ [] [] 0
        (fun _ _ _ => .error .promptNotFoundError) "w" none [] none =
        (.error (.pm .promptNotRegisteredError), []) :=
  claim_C8 ⟨true, 3600⟩ [] [] 0 (fun _ _ _ => .error .promptNotFoundError)
    "w" none "D" rfl rfl

/-- C1 (code bug): with manager `cache_ttl = 3600`, `cache_enabled = True`
and a per-prompt `cache_ttl` of 0, `get_prompt` evaluates
`0 or 3600 = 3600` and stores the fetched content, so a second call is
served from the cache — the per-prompt 0 does not disable caching as the
spec (and `_cache_prompt`'s own `ttl == 0` guard together with the
`cache_ttl` field doc "None means use global default") intends. -/
theorem claim_C1_codebug_eval :
    (managerGetPrompt ⟨true, 3600⟩
          [("p", ⟨"p", .local, none, none, some "p.txt", some 0⟩)] [] 5
          (fun _ _ _ => .ok "content") "p" none [] none).1 = .ok "content"
    ∧ lookupAssoc
        (managerGetPrompt ⟨true, 3600⟩
          [("p", ⟨"p", .local, none, none, some "p.txt", some 0⟩)] [] 5
          (fun _ _ _ => .ok "content") "p" none [] none).2 "p:latest" =
        some ("content", 5)
    ∧ (managerGetPrompt ⟨true, 3600⟩
          [("p", ⟨"p", .local, none, none, some "p.txt", some 0⟩)]
          (managerGetPrompt ⟨true, 3600⟩
            [("p", ⟨"p", .local, none, none, some "p.txt", some 0⟩)] [] 5
            (fun _ _ _ => .ok "content") "p" none [] none).2 6
          (fun _ _ _ => .error .promptNotFoundError) "p" none [] none).1 =
        .ok "content" := by
  decide

/-- C2 counterexample: the manager forwards the variables mapping to the
Filesystem adapter, which substitutes before returning, so the value the
manager caches for file content `"Hi {x}"` with `{"x": "A"}` is the already
substituted `"Hi A"`, not the raw pre-substitution content. -/
theorem claim_C2_counterexample :
    lookupAssoc
        (managerGetPrompt ⟨true, 3600⟩
          [("q", ⟨"q", .local, none, none, some "q.txt", none⟩)] [] 0
          (fun _ _ vs => localSourceGet "Hi {x}" vs) "q" none [("x", "A")]
          none).2 "q:latest" = some ("Hi A", 0)
    ∧ ("Hi A" : String) ≠ "Hi {x}" := by
  decide

/-- C2 (amended): on a cache-miss fetch the manager caches exactly the
string the source adapter returned (the manager itself applies substitution
only to the value it returns) — but since the variables mapping is forwarded
to the adapter, that string need not be the raw pre-substitution content. -/
theorem claim_C2_amended (cfg : MgrConfig)
    (prompts : List (String × PromptConfig)) (cache : Cache) (now : Int)
    (fetch : String → Option String → List (String × String) →
      Except PMExc String)
    (name : String) (version : Option String)
    (vars : List (String × String)) (pcfg : PromptConfig) (content : String)
    (hmiss : lookupAssoc cache (cacheKeyOf name version) = none)
    (hreg : lookupAssoc prompts name = some pcfg)
    (hfetch : fetch (pcfg.promptId.getD name) (pyOrStr version pcfg.version)
      (if vars.isEmpty then [] else vars) = .ok content)
    (hen : cfg.cacheEnabled = true)
    (httl : pyOrInt pcfg.cacheTtl cfg.cacheTtl ≠ 0) :
    lookupAssoc
        (managerGetPrompt cfg prompts cache now fetch name version vars
          none).2 (cacheKeyOf name version) = some (content, now)
    ∧ (managerGetPrompt cfg prompts cache now fetch name version vars
        none).1 = applyVariables content vars := by
  rw [managerGetPrompt_fetch_ok cfg prompts cache now fetch name version
    vars pcfg content hmiss hreg hfetch]
  refine ⟨?_, rfl⟩
  simp only [hen, if_true]
  unfold cachePrompt
  simp only [hen, httl]
  simp [httl, lookupAssoc_assocSet_self]

/-- C2 amended witness: the local adapter returns `"Hi A"` and that exact
string is what lands in the manager cache. -/
theorem claim_C2_amended_witness :
    lookupAssoc
        (managerGetPrompt ⟨true, 3600⟩
          [("q", ⟨"q", .local, none, none, some "q.txt", none⟩)] [] 0
          (fun _ _ vs => localSourceGet "Hi {x}" vs) "q" none [("x", "A")]
          none).2 (cacheKeyOf "q" none) = some ("Hi A", 0)
    ∧ (managerGetPrompt ⟨true, 3600⟩
        [("q", ⟨"q", .local, none, none, some "q.txt", none⟩)] [] 0
        (fun _ _ vs => localSourceGet "Hi {x}" vs) "q" none [("x", "A")]
        none).1 = applyVariables "Hi A" [("x", "A")] :=
  claim_C2_amended ⟨true, 3600⟩
    [("q", ⟨"q", .local, none, none, some "q.txt", none⟩)] [] 0
    (fun _ _ vs => localSourceGet "Hi {x}" vs) "q" none [("x", "A")]
    ⟨"q", .local, none, none, some "q.txt", none⟩ "Hi A" rfl rfl (by decide)
    rfl (by decide)

/-- C3 counterexample: manager TTL 10, per-prompt override 100, entry stored
at time 0 and read at time 50 — the claimed effective TTL (the override,
100) has not elapsed, yet the read reports the entry absent (and deletes
it), because `_get_cached` compares against the manager-wide TTL only. -/
theorem claim_C3_counterexample :
    getCached ⟨true, 10⟩ [("p:latest", ("c", 0))] 50 "p:latest" = (none, [])
    ∧ ¬((50 : Int) - 0 > pyOrInt (some 100) 10) := by
  decide

/-- C3 (amended): for a present entry with caching enabled, the read reports
it absent exactly when the manager-wide `cache_ttl` is positive and has
elapsed since the stored timestamp; the per-prompt override plays no part in
read-time expiry (it is not even available to `_get_cached`). -/
theorem claim_C3_amended (cfg : MgrConfig) (cache : Cache) (now ts : Int)
    (key content : String) (hen : cfg.cacheEnabled = true)
    (hk : lookupAssoc cache key = some (content, ts)) :
    (getCached cfg cache now key).1 = none ↔
      cfg.cacheTtl > 0 ∧ now - ts > cfg.cacheTtl := by
  unfold getCached
  by_cases h1 : cfg.cacheTtl > 0
  · by_cases h2 : now - ts > cfg.cacheTtl <;> simp [hen, hk, h1, h2]
  · simp [hen, hk, h1]

/-- C3 amended witness: with manager TTL 10 elapsed (read at 50, stored at
0), the entry is reported absent. -/
theorem claim_C3_amended_witness :
    (getCached ⟨true, 10⟩ [("k", ("c", 0))] 50 "k").1 = none :=
  (claim_C3_amended ⟨true, 10⟩ [("k", ("c", 0))] 50 0 "k" "c" rfl rfl).mpr
    (by constructor <;> decide)

/-- C6 counterexample: with the OpenAI library present but no API key, the
first `get_prompt` for an OpenAI-source prompt fails with
`OpenAIConfigError` — which is not `SourceConnectionError` — contradicting
the claimed source-connection classification. -/
theorem claim_C6_counterexample :
    (openaiSourceGet true none false [] (fun _ => .failure "boom") 3 "abc"
        none).1 = some (.error .openAIConfigError)
    ∧ isSourceConnectionError .openAIConfigError = false
    ∧ (managerGetPrompt ⟨true, 3600⟩
        [("ai", ⟨"ai", .openai, some "abc", none, none, none⟩)] [] 0
        (fun _ _ _ => .error .openAIConfigError) "ai" none [] none).1 =
      .error (.pm .openAIConfigError) := by
  decide

/-- C6 (amended): with no API key configured, initialization of the OpenAI
adapter fails with `OpenAIConfigError` — a source error that is also a
configuration error, not a `SourceConnectionError` — and the first
`get_prompt` for a registered OpenAI prompt without a default surfaces
exactly that error to the caller. -/
theorem claim_C6_amended (cif : Bool) (srcCache : List (String × String))
    (attempts : Nat → Outcome) (n : Nat) (pid : String)
    (ver : Option String) (cfg : MgrConfig)
    (prompts : List (String × PromptConfig)) (cache : Cache) (now : Int)
    (name : String) (version : Option String)
    (vars : List (String × String)) (pcfg : PromptConfig)
    (hmiss : lookupAssoc cache (cacheKeyOf name version) = none)
    (hreg : lookupAssoc prompts name = some pcfg) :
    (openaiSourceGet true none cif srcCache attempts n pid ver).1 =
        some (.error .openAIConfigError)
    ∧ (managerGetPrompt cfg prompts cache now
        (fun _ _ _ => .error .openAIConfigError) name version vars none).1 =
      .error (.pm .openAIConfigError)
    ∧ isConfigurationError .openAIConfigError = true
    ∧ isSourceError .openAIConfigError = true
    ∧ isSourceConnectionError .openAIConfigError = false := by
  refine ⟨rfl, ?_, rfl, rfl, rfl⟩
  rw [managerGetPrompt_fetch_error cfg prompts cache now _ name version vars
    pcfg .openAIConfigError hmiss hreg rfl]

/-- C6 amended witness at the concrete scenario of the spec. -/
theorem claim_C6_amended_witness :
    (openaiSourceGet true none false [] (fun _ => .failure "x") 3 "abc"
        none).1 = some (.error .openAIConfigError)
    ∧ (managerGetPrompt ⟨true, 3600⟩
        [("ai", ⟨"ai", .openai, some "abc", none, none, none⟩)] [] 0
        (fun _ _ _ => .error .openAIConfigError) "ai" none [] none).1 =
      .error (.pm .openAIConfigError)
    ∧ isConfigurationError .openAIConfigError = true
    ∧ isSourceError .openAIConfigError = true
    ∧ isSourceConnectionError .openAIConfigError = false :=
  claim_C6_amended false [] (fun _ => .failure "x") 3 "abc" none
    ⟨true, 3600⟩ [("ai", ⟨"ai", .openai, some "abc", none, none, none⟩)] []
    0 "ai" none [] ⟨"ai", .openai, some "abc", none, none, none⟩ rfl rfl

/-- C7 (code bug): through `Manager.register_prompt` /
`Registry.register_from_dict`, a duplicate registration without overwrite
surfaces as `ConfigurationError` (the blanket wrap), not as the documented
`PromptAlreadyRegisteredError`; the state is unchanged.  The direct
`Registry.register` raises the documented error, and overwrite replaces the
entry. -/
theorem claim_C7_codebug_eval :
    (registerFromDict
        (registerFromDict ⟨[], []⟩ ⟨"a", .local, none, none, none, none⟩
          false).2 ⟨"a", .local, none, none, none, none⟩ false).1 =
      .error .configurationError
    ∧ isPromptAlreadyRegisteredError .configurationError = false
    ∧ (registerFromDict
        (registerFromDict ⟨[], []⟩ ⟨"a", .local, none, none, none, none⟩
          false).2 ⟨"a", .local, none, none, none, none⟩ false).2 =
      (registerFromDict ⟨[], []⟩ ⟨"a", .local, none, none, none, none⟩
        false).2
    ∧ (registryRegister
        (registerFromDict ⟨[], []⟩ ⟨"a", .local, none, none, none, none⟩
          false).2 ⟨"a", .local, none, none, none, none⟩ false).1 =
      .error .promptAlreadyRegisteredError
    ∧ lookupAssoc
        (registryRegister
          (registerFromDict ⟨[], []⟩ ⟨"a", .local, none, none, none, none⟩
            false).2 ⟨"a", .openai, some "x", none, none, none⟩ true).2.prompts
        "a" = some ⟨"a", .openai, some "x", none, none, none⟩ := by
  decide
